import Mathlib

/-!
Verification of the solbase-service settlement orchestrator
(`src/payment-intents/payment-intents.service.ts`), the chain settlement
executor (`src/payment-intents/base-payment.service.ts`) and the request
DTOs, against the natural-language specification.

The repository is a NestJS service; its state lives in a Prisma-backed
store keyed by `intent_id`.  All operations here act on the record of one
intent id, so the store is modelled as `Option Intent` (the result of
`findUnique` for that id).  Each Prisma call in the source is one atomic
action; the sequential functions below compute the net effect of one
service call, and a separate small-step machine models the interleaving
of concurrent `triggerBasePayment` calls at Prisma-call granularity.
Wall-clock times (`Date.now()`, `new Date()`) are naturals (milliseconds)
passed in explicitly.  External collaborators (the x402 facilitator
reached through `fetch`, and the Base chain reached through viem) are
modelled as explicit outcome parameters.
-/

/-- Lifecycle status stored in the `status` column.  The source compares
string literals; the five values that occur are modelled as an inductive. -/
inductive Status where
  | PENDING
  | SOL_SETTLED
  | BASE_SETTLING
  | BASE_SETTLED
  | EXPIRED
  deriving DecidableEq, Repr

/-- The persisted payment-intent record (Prisma model `paymentIntent`).
The `amount` column is a decimal string; it is modelled by its rational
value.  Nullable columns are `Option`. -/
structure Intent where
  intentId : String
  amount : ℚ
  merchantRecipient : String
  payerChain : String
  targetChain : String
  status : Status
  solSettleProof : Option String
  solTxHash : Option String
  payerWallet : Option String
  baseTxHash : Option String
  baseSettleProof : Option String
  createdAt : ℕ
  solSettledAt : Option ℕ
  baseSettledAt : Option ℕ
  completedAt : Option ℕ
  expiresAt : Option ℕ
  deriving DecidableEq, Repr

/-- `CreateIntentDto`: `amount` (a JSON number, modelled as a rational)
and `merchant_recipient`. -/
structure CreateIntentDto where
  amount : ℚ
  merchantRecipient : String
  deriving DecidableEq, Repr

/-- `SolanaProofDto`: `settle_proof`, `tx_hash`, optional `payer_wallet`. -/
structure SolanaProofDto where
  settleProof : String
  txHash : String
  payerWallet : Option String
  deriving DecidableEq, Repr

/-- Errors thrown by the service, by NestJS exception class
(`NotFoundException`, `BadRequestException`,
`InternalServerErrorException`), each carrying its message. -/
inductive Err where
  | notFound (msg : String)
  | badRequest (msg : String)
  | internalServerError (msg : String)
  deriving DecidableEq, Repr

/-- Checks one character of the `merchant_recipient` pattern body
(`[a-fA-F0-9]`). -/
def isHexChar (c : Char) : Bool :=
  (48 ≤ c.toNat && c.toNat ≤ 57) ||
  (97 ≤ c.toNat && c.toNat ≤ 102) ||
  (65 ≤ c.toNat && c.toNat ≤ 70)

/-- The `@Matches(/^0x[a-fA-F0-9]{40}$/)` recipient validation on
`CreateIntentDto.merchant_recipient`. -/
def isEvmAddress (s : String) : Bool :=
  match s.data with
  | '0' :: 'x' :: rest => rest.length = 40 && rest.all isHexChar
  | _ => false

/-- The class-validator checks on `CreateIntentDto`: `@Min(0.01)` on
`amount` and the EVM-address pattern on `merchant_recipient`, applied by
the global `ValidationPipe` before the service runs. -/
def validateCreateIntent (dto : CreateIntentDto) : Bool :=
  decide ((1 : ℚ) / 100 ≤ dto.amount) && isEvmAddress dto.merchantRecipient

/-- Response object returned by `createIntent`. -/
structure CreateResponse where
  intentId : String
  amount : ℚ
  merchantRecipient : String
  status : Status
  createdAt : ℕ
  expiresAt : Option ℕ
  deriving DecidableEq, Repr

/-- `PaymentIntentsService.createIntent`: builds the record persisted by
`prisma.paymentIntent.create` — status PENDING, `expires_at` =
`Date.now() + 10 * 60 * 1000`, payer chain fixed to solana, target chain
fixed to base, every leg-specific column left unset. -/
def createIntentRecord (now : ℕ) (intentId : String) (dto : CreateIntentDto) : Intent :=
  { intentId := intentId
    amount := dto.amount
    merchantRecipient := dto.merchantRecipient
    payerChain := "solana"
    targetChain := "base"
    status := Status.PENDING
    solSettleProof := none
    solTxHash := none
    payerWallet := none
    baseTxHash := none
    baseSettleProof := none
    createdAt := now
    solSettledAt := none
    baseSettledAt := none
    completedAt := none
    expiresAt := some (now + 10 * 60 * 1000) }

/-- The create-intent endpoint: the `ValidationPipe` rejects an invalid
DTO with a 400 `BadRequestException` before `createIntent` runs;
otherwise the service persists the new record and answers with its
projection. -/
def createIntentEndpoint (now : ℕ) (intentId : String) (dto : CreateIntentDto) :
    Except Err (Intent × CreateResponse) :=
  if validateCreateIntent dto then
    let i := createIntentRecord now intentId dto
    Except.ok (i,
      { intentId := i.intentId
        amount := i.amount
        merchantRecipient := i.merchantRecipient
        status := i.status
        createdAt := i.createdAt
        expiresAt := i.expiresAt })
  else
    Except.error (Err.badRequest "Validation failed")

/-- The object literal returned by `getIntent` (a projection of the
record; note it omits the two settle-proof columns). -/
structure IntentView where
  intentId : String
  amount : ℚ
  merchantRecipient : String
  payerWallet : Option String
  status : Status
  solTxHash : Option String
  baseTxHash : Option String
  createdAt : ℕ
  solSettledAt : Option ℕ
  baseSettledAt : Option ℕ
  completedAt : Option ℕ
  expiresAt : Option ℕ
  deriving DecidableEq, Repr

/-- Projection used by `getIntent` to build its response. -/
def Intent.view (i : Intent) : IntentView :=
  { intentId := i.intentId
    amount := i.amount
    merchantRecipient := i.merchantRecipient
    payerWallet := i.payerWallet
    status := i.status
    solTxHash := i.solTxHash
    baseTxHash := i.baseTxHash
    createdAt := i.createdAt
    solSettledAt := i.solSettledAt
    baseSettledAt := i.baseSettledAt
    completedAt := i.completedAt
    expiresAt := i.expiresAt }

/-- `PaymentIntentsService.getIntent`: `findUnique`, then lazy expiry —
only when `expires_at` is set, `new Date() > expires_at` (strict), and
the stored status is PENDING does it update the row to EXPIRED — then
the projection of the (possibly updated) record.  Returns the new store
contents and the response (`none` models the `null` return). -/
def getIntent (now : ℕ) (st : Option Intent) : Option Intent × Option IntentView :=
  match st with
  | none => (none, none)
  | some i =>
      let past : Bool := match i.expiresAt with
        | some e => decide (e < now)
        | none => false
      let i2 := if past && decide (i.status = Status.PENDING)
        then { i with status := Status.EXPIRED } else i
      (some i2, some i2.view)

/-- Outcome of the `fetch` to the x402 facilitator `/verify` endpoint:
either a response (with `response.ok`, the parsed body's `valid` flag,
the body's optional `message`, and the HTTP status code) or a transport
error thrown by `fetch` itself. -/
inductive VerifierOutcome where
  | response (ok : Bool) (validFlag : Bool) (errMsg : Option String) (statusCode : ℕ)
  | transportError (msg : String)
  deriving DecidableEq, Repr

/-- `PaymentIntentsService.verifyX402Proof`: a non-ok response throws
`errorData.message` or "Verification failed with status N"; an ok
response whose body lacks `valid: true` throws "Proof verification
failed"; a transport error propagates.  Success returns unit. -/
def verifyX402Proof : VerifierOutcome → Except String Unit
  | VerifierOutcome.transportError m => Except.error m
  | VerifierOutcome.response ok validFlag errMsg code =>
      if !ok then
        Except.error (errMsg.getD ("Verification failed with status " ++ toString code))
      else if !validFlag then
        Except.error "Proof verification failed"
      else
        Except.ok ()

/-- Response object of `submitSolanaProof`. -/
structure SubmitAck where
  success : Bool
  message : String
  intentId : String
  status : Status
  deriving DecidableEq, Repr

/-- `PaymentIntentsService.submitSolanaProof`: `findUnique` (NotFound if
absent), reject with 400 unless the stored status is PENDING (no expiry
check appears here), verify the proof via the facilitator (any
verification error — explicit rejection, non-2xx, or transport failure —
is re-thrown as the same `BadRequestException` with prefix "Invalid
settlement proof: "), then update the row to SOL_SETTLED with the proof
fields and `sol_settled_at = new Date()`.  (The `setImmediate` dispatch
of `triggerBasePayment` is fire-and-forget and does not affect this
call's store-and-result; concurrency is modelled separately.) -/
def submitSolanaProof (now : ℕ) (verifier : VerifierOutcome) (dto : SolanaProofDto)
    (st : Option Intent) : Option Intent × Except Err SubmitAck :=
  match st with
  | none => (none, Except.error (Err.notFound "Payment intent not found"))
  | some i =>
      if i.status ≠ Status.PENDING then
        (some i, Except.error (Err.badRequest "Payment intent is not in PENDING status"))
      else
        match verifyX402Proof verifier with
        | Except.error m =>
            (some i, Except.error (Err.badRequest ("Invalid settlement proof: " ++ m)))
        | Except.ok _ =>
            let i2 := { i with
              status := Status.SOL_SETTLED
              solSettleProof := some dto.settleProof
              solTxHash := some dto.txHash
              payerWallet := dto.payerWallet
              solSettledAt := some now }
            (some i2,
              Except.ok
                { success := true
                  message := "Solana payment verified"
                  intentId := i2.intentId
                  status := i2.status })

/-- Result of `BasePaymentService.executePayment` (`PaymentResult`):
the transaction hash and the optional synthetic proof string. -/
structure PaymentResult where
  txHash : String
  proof : Option String
  deriving DecidableEq, Repr

/-- Response object of `triggerBasePayment`. -/
structure TriggerAck where
  success : Bool
  message : String
  baseTxHash : Option String
  status : Status
  deriving DecidableEq, Repr

/-- JS `result.proof || 'base_settlement_confirmed'` (missing or empty
string — both falsy — fall back to the default). -/
def proofOrDefault (p : Option String) : String :=
  match p with
  | some s => if s = "" then "base_settlement_confirmed" else s
  | none => "base_settlement_confirmed"

/-- `PaymentIntentsService.triggerBasePayment` with the executor's
outcome injected: `findUnique` (NotFound if absent); 400 unless the
stored status is SOL_SETTLED; update status to BASE_SETTLING (an
unconditional `update` keyed only on `intent_id` — the small-step
machine below makes that intermediate write observable); call the
executor; on success update to BASE_SETTLED with the target-leg fields
and both timestamps; on failure update the status back to SOL_SETTLED
(no other column in the update) and throw 500.  This function computes
the net store-and-result of one uninterleaved call. -/
def triggerBasePaymentWith (now : ℕ) (exec : Except String PaymentResult)
    (st : Option Intent) : Option Intent × Except Err TriggerAck :=
  match st with
  | none => (none, Except.error (Err.notFound "Payment intent not found"))
  | some i =>
      if i.status ≠ Status.SOL_SETTLED then
        (some i, Except.error (Err.badRequest "Solana payment not settled for intent"))
      else
        match exec with
        | Except.ok r =>
            let i2 := { i with
              status := Status.BASE_SETTLED
              baseTxHash := some r.txHash
              baseSettleProof := some (proofOrDefault r.proof)
              baseSettledAt := some now
              completedAt := some now }
            (some i2,
              Except.ok
                { success := true
                  message := "Base payment completed"
                  baseTxHash := i2.baseTxHash
                  status := i2.status })
        | Except.error m =>
            (some { i with status := Status.SOL_SETTLED },
              Except.error (Err.internalServerError ("Base payment failed: " ++ m)))

/-- One leg of the receipt (`solana_payment` / `base_payment`). -/
structure ReceiptLeg where
  txHash : String
  settleProof : Option String
  settledAt : Option ℕ
  explorerUrl : String
  deriving DecidableEq, Repr

/-- The receipt object built by `getReceipt`. -/
structure Receipt where
  intentId : String
  amount : ℚ
  merchantRecipient : String
  payerWallet : Option String
  status : Status
  solanaPayment : Option ReceiptLeg
  basePayment : Option ReceiptLeg
  createdAt : ℕ
  completedAt : Option ℕ
  expiresAt : Option ℕ
  deriving DecidableEq, Repr

/-- JS truthiness of a nullable string column (`intent.sol_tx_hash ? … : null`):
null and the empty string are falsy. -/
def truthy (o : Option String) : Bool :=
  match o with
  | some s => s ≠ ""
  | none => false

/-- `PaymentIntentsService.getReceipt`: `findUnique` and a pure
projection — no `update` call appears anywhere in it.  Explorer bases
follow the configured networks exactly as in the source.  Returns the
(unchanged) store alongside the response so that read-onlyness is a
provable statement rather than a modelling assumption. -/
def getReceipt (solNetwork baseNetwork : String) (st : Option Intent) :
    Option Intent × Option Receipt :=
  match st with
  | none => (none, none)
  | some i =>
      let solanaExplorerBase :=
        if solNetwork = "mainnet-beta" then "https://solscan.io"
        else "https://solscan.io?cluster=devnet"
      let baseExplorerBase :=
        if baseNetwork = "base" then "https://basescan.org"
        else "https://sepolia.basescan.org"
      (some i, some
        { intentId := i.intentId
          amount := i.amount
          merchantRecipient := i.merchantRecipient
          payerWallet := i.payerWallet
          status := i.status
          solanaPayment :=
            if truthy i.solTxHash then
              some { txHash := i.solTxHash.getD ""
                     settleProof := i.solSettleProof
                     settledAt := i.solSettledAt
                     explorerUrl := solanaExplorerBase ++ "/tx/" ++ i.solTxHash.getD "" }
            else none
          basePayment :=
            if truthy i.baseTxHash then
              some { txHash := i.baseTxHash.getD ""
                     settleProof := i.baseSettleProof
                     settledAt := i.baseSettledAt
                     explorerUrl := baseExplorerBase ++ "/tx/" ++ i.baseTxHash.getD "" }
            else none
          createdAt := i.createdAt
          completedAt := i.completedAt
          expiresAt := i.expiresAt })

/-!
Chain settlement executor (`BasePaymentService.executePayment`) and the
amount-conversion path.

`triggerBasePayment` parses the stored decimal `amount` column with
`parseFloat` into a binary64 JS number; `executePayment` turns that
number back into a decimal string (`request.amount.toString()`) and
scales it by 10^6 with viem's `parseUnits`; the balance check compares
two `bigint`s after converting each with `Number(...)` (binary64 again).
The binary64 rounding is modelled exactly (round to nearest,
ties to even); decimal strings are modelled as an integer part plus a
list of fraction digits.
-/

/-- Finds the scale of the binary64 ulp for a natural: the number of
binary digits beyond the 53 of the significand.  Fuelled structural
recursion (the fuel `n` dominates the bit length of `n`). -/
def f64Binade : ℕ → ℕ → ℕ
  | 0, _ => 0
  | fuel + 1, n => if n < 2 ^ 53 then 0 else f64Binade fuel (n / 2) + 1

/-- Rounds a natural to the nearest binary64-representable value
(round to nearest, ties to even), i.e. the exact value of the JS number
`Number(n)` / `parseFloat` of the digits of `n` (naturals below 2^971
never overflow to Infinity; all values used here are far below). -/
def roundF64Nat (n : ℕ) : ℕ :=
  let e := f64Binade n n
  let u := 2 ^ e
  let q := n / u
  let r := n % u
  if 2 * r < u then q * u
  else if u < 2 * r then (q + 1) * u
  else if q % 2 = 0 then q * u else (q + 1) * u

/-- A decimal string: integer part and the list of fraction digits
(most significant first), i.e. the string `intPart ++ "." ++ fracDigits`
(no fraction dot when `fracDigits = []`). -/
structure Dec where
  intPart : ℕ
  fracDigits : List ℕ
  deriving DecidableEq, Repr

/-- Value of a digit string read left to right. -/
def digitsVal (l : List ℕ) : ℕ :=
  l.foldl (fun a d => a * 10 + d) 0

/-- viem strips trailing zeros of the fraction:
`fraction.replace(/(0+)$/, '')`. -/
def stripTrailingZeros (l : List ℕ) : List ℕ :=
  ((l.reverse.dropWhile (fun d => d = 0))).reverse

/-- Model of viem `parseUnits(value, decimals)` (dependency, not repo
code): scales the decimal by `10 ^ decimals` with bigint string
arithmetic.  When more fraction digits than `decimals` remain after
stripping trailing zeros, the source rounds the tail half-up via
`Math.round` on the sub-fraction; value-wise that adds one unit exactly
when the first dropped digit is at least 5, which is how the branch is
rendered here.  Amounts in this service are non-negative, so the
negative branch of the source is omitted. -/
def parseUnits (v : Dec) (decimals : ℕ) : ℕ :=
  let frac := stripTrailingZeros v.fracDigits
  if decimals < frac.length then
    let kept := frac.take decimals
    let rest := frac.drop decimals
    let roundUp : Bool := match rest with
      | [] => false
      | d :: _ => 5 ≤ d
    v.intPart * 10 ^ decimals + digitsVal kept + (if roundUp then 1 else 0)
  else
    v.intPart * 10 ^ decimals + digitsVal frac * 10 ^ (decimals - frac.length)

/-- The amount path from an integral stored `amount` column to the
integer handed to the USDC `transfer` call:
`parseFloat(intent.amount)` (binary64 rounding) in `triggerBasePayment`,
then `request.amount.toString()` in `executePayment` — ECMAScript prints
a JS number whose value is an integer below 10^21 as its exact decimal
digits — then `parseUnits(…, 6)`.  Modelled for integral amounts, which
is where the claims are settled. -/
def amountPathUnits (n : ℕ) : ℕ :=
  parseUnits { intPart := roundF64Nat n, fracDigits := [] } 6

/-- The error message thrown on the insufficient-balance branch (the
source interpolates the amounts into the message; the constant prefix
stands for it). -/
def insufficientMsg : String := "Insufficient USDC balance"

/-- `BasePaymentService.executePayment`, with the chain modelled
explicitly: `balance` is the settlement wallet's USDC balance returned
by `balanceOf` (in 6-decimal units), `txHash` the hash the chain assigns
to the submitted transfer, and `amount` the decimal rendering of
`request.amount`.  Computes `amountInUsdc = parseUnits(amount, 6)`;
fails when `Number(balance) < Number(amountInUsdc)` (both sides binary64
rounded by the `Number(...)` conversions); otherwise submits one
`transfer` of `amountInUsdc` and returns the hash plus the synthetic
proof `"base_settlement_" + txHash`.  The first component lists the
transfer instructions submitted to the chain during the call. -/
def executePayment (balance : ℕ) (txHash : String) (amount : Dec) :
    List ℕ × Except String PaymentResult :=
  let amountInUsdc := parseUnits amount 6
  if roundF64Nat balance < roundF64Nat amountInUsdc then
    ([], Except.error insufficientMsg)
  else
    ([amountInUsdc],
      Except.ok { txHash := txHash, proof := some ("base_settlement_" ++ txHash) })

/-!
Small-step model of concurrent `triggerBasePayment` calls.

Each `await`ed Prisma / executor call is one atomic action; the local
control point between actions is a phase.  `stepTrigger` advances one
invocation by one atomic action against the shared store and reports how
many times the executor was invoked by that action (0 or 1).
-/

/-- Result of one `triggerBasePayment` invocation in the small-step
model. -/
inductive TriggerOutcome where
  | completed
  | failedNotFound
  | failedInvalidState
  | failedSettlement
  deriving DecidableEq, Repr

/-- Control point of one in-flight `triggerBasePayment` invocation:
before the `findUnique` read; before the BASE_SETTLING `update`; before
the `executePayment` call; before the final `update` (success fields or
rollback); finished. -/
inductive TPhase where
  | start
  | settling (seen : Intent)
  | executing (seen : Intent)
  | finishing (seen : Intent) (res : Except String PaymentResult)
  | finished (out : TriggerOutcome)
  deriving Repr

/-- One atomic action of one `triggerBasePayment` invocation.  `exec` is
the outcome the executor will produce for this invocation.  Returns the
new phase, the new store, and the number of executor invocations
performed by this action. -/
def stepTrigger (now : ℕ) (exec : Except String PaymentResult) :
    TPhase → Option Intent → TPhase × Option Intent × ℕ
  | TPhase.start, st =>
      match st with
      | none => (TPhase.finished TriggerOutcome.failedNotFound, none, 0)
      | some i =>
          if i.status = Status.SOL_SETTLED then (TPhase.settling i, some i, 0)
          else (TPhase.finished TriggerOutcome.failedInvalidState, some i, 0)
  | TPhase.settling i, st =>
      (TPhase.executing i,
        st.map (fun j => { j with status := Status.BASE_SETTLING }), 0)
  | TPhase.executing i, st => (TPhase.finishing i exec, st, 1)
  | TPhase.finishing _ res, st =>
      match res with
      | Except.ok r =>
          (TPhase.finished TriggerOutcome.completed,
            st.map (fun j => { j with
              status := Status.BASE_SETTLED
              baseTxHash := some r.txHash
              baseSettleProof := some (proofOrDefault r.proof)
              baseSettledAt := some now
              completedAt := some now }), 0)
      | Except.error _ =>
          (TPhase.finished TriggerOutcome.failedSettlement,
            st.map (fun j => { j with status := Status.SOL_SETTLED }), 0)
  | TPhase.finished out, st => (TPhase.finished out, st, 0)

/-- Joint state of two concurrent `triggerBasePayment` invocations on
the same intent: both control points, the shared store, and the total
number of executor invocations so far. -/
structure TwoTriggers where
  p0 : TPhase
  p1 : TPhase
  store : Option Intent
  execCount : ℕ
  deriving Repr

/-- Runs a schedule over two concurrent invocations: `false` advances
invocation 0 by one atomic action, `true` advances invocation 1. -/
def runTwoTriggers (now : ℕ) (exec : Except String PaymentResult)
    (schedule : List Bool) (init : TwoTriggers) : TwoTriggers :=
  schedule.foldl
    (fun s pick =>
      if pick then
        let (p, st, k) := stepTrigger now exec s.p1 s.store
        { s with p1 := p, store := st, execCount := s.execCount + k }
      else
        let (p, st, k) := stepTrigger now exec s.p0 s.store
        { s with p0 := p, store := st, execCount := s.execCount + k })
    init

/-!
Concrete fixtures shared by the theorems below.
-/

/-- A well-formed Base-chain recipient address (0x + 40 hex characters). -/
def sampleRecipient : String := "0x0123456789abcdef0123456789abcdef01234567"

/-- A concrete intent sitting in SOL_SETTLED with its source-leg fields
recorded. -/
def sampleSolSettled : Intent :=
  { intentId := "intent-1"
    amount := 1
    merchantRecipient := sampleRecipient
    payerChain := "solana"
    targetChain := "base"
    status := Status.SOL_SETTLED
    solSettleProof := some "sp"
    solTxHash := some "sol-tx"
    payerWallet := some "payer"
    baseTxHash := none
    baseSettleProof := none
    createdAt := 0
    solSettledAt := some 10
    baseSettledAt := none
    completedAt := none
    expiresAt := some 600000 }

/-- A concrete intent whose stored status is still PENDING although its
`expires_at` (1000 ms) has been reached. -/
def samplePendingExpired : Intent :=
  { sampleSolSettled with
    status := Status.PENDING
    expiresAt := some 1000
    solSettleProof := none
    solTxHash := none
    payerWallet := none
    solSettledAt := none }

/-- A concrete PENDING intent that is not yet expired. -/
def samplePending : Intent :=
  { samplePendingExpired with expiresAt := some 600000 }

/-- A concrete EXPIRED intent. -/
def sampleExpiredIntent : Intent :=
  { samplePendingExpired with status := Status.EXPIRED }

/-- A concrete proof submission. -/
def sampleProofDto : SolanaProofDto :=
  { settleProof := "pf", txHash := "sol-tx", payerWallet := some "payer" }

/-- A successful executor outcome. -/
def sampleExecOk : Except String PaymentResult :=
  Except.ok { txHash := "0xbase", proof := some "base_settlement_0xbase" }

/-- Two trigger invocations both starting against the SOL_SETTLED
fixture. -/
def twoTriggersInit : TwoTriggers :=
  { p0 := TPhase.start
    p1 := TPhase.start
    store := some sampleSolSettled
    execCount := 0 }

/-- The racing interleaving: both invocations perform their `findUnique`
read before either performs its BASE_SETTLING write. -/
def raceSchedule : List Bool := [false, true, false, true, false, true, false, true]

/-- The serialized schedule: invocation 0 runs to completion before
invocation 1 starts. -/
def serialSchedule : List Bool := [false, false, false, false, true]

/-!
Helper lemmas.
-/

/-- Overwriting the status field with the value it already holds is the
identity on records. -/
theorem Intent.setStatus_self (i : Intent) (s : Status) (h : i.status = s) :
    ({ i with status := s } : Intent) = i := by
  cases i
  simp only at h
  subst h
  rfl

/-- Appending trailing zero digits multiplies the value of a digit string
by the matching power of ten. -/
theorem digitsVal_append_replicate (k : ℕ) (xs : List ℕ) :
    digitsVal (xs ++ List.replicate k 0) = digitsVal xs * 10 ^ k := by
  induction k generalizing xs with
  | zero => simp [digitsVal]
  | succ k ih =>
      have h1 : xs ++ List.replicate (k + 1) 0 = (xs ++ [0]) ++ List.replicate k 0 := by
        simp [List.replicate_succ]
      have h2 : digitsVal (xs ++ [0]) = digitsVal xs * 10 := by
        simp [digitsVal, List.foldl_append]
      rw [h1, ih, h2]
      ring

/-- `stripTrailingZeros` removes exactly a tail of zero digits. -/
theorem stripTrailingZeros_spec (l : List ℕ) :
    (stripTrailingZeros l).length ≤ l.length ∧
    l = stripTrailingZeros l ++
        List.replicate (l.length - (stripTrailingZeros l).length) 0 := by
  have h1 : l = (l.reverse.dropWhile fun d => decide (d = 0)).reverse ++
      (l.reverse.takeWhile fun d => decide (d = 0)).reverse := by
    conv_lhs => rw [← List.reverse_reverse l,
      ← List.takeWhile_append_dropWhile (p := fun d => decide (d = 0)) (l := l.reverse)]
    rw [List.reverse_append]
  have h2 : (l.reverse.takeWhile fun d => decide (d = 0)).reverse =
      List.replicate ((l.reverse.takeWhile fun d => decide (d = 0)).reverse).length 0 := by
    apply List.eq_replicate_of_mem
    intro b hb
    rw [List.mem_reverse] at hb
    have hp := List.mem_takeWhile_imp hb
    simpa using hp
  have hstrip : stripTrailingZeros l =
      (l.reverse.dropWhile fun d => decide (d = 0)).reverse := rfl
  have hlen : l.length = (stripTrailingZeros l).length +
      ((l.reverse.takeWhile fun d => decide (d = 0)).reverse).length := by
    conv_lhs => rw [h1]
    rw [List.length_append, hstrip]
  constructor
  · rw [hlen]
    omega
  · conv_lhs => rw [h1]
    rw [← hstrip, h2]
    have h3 : l.length - (stripTrailingZeros l).length =
        ((l.reverse.takeWhile fun d => decide (d = 0)).reverse).length := by
      rw [hlen]
      omega
    rw [h3]

/-- For at most six fraction digits `parseUnits` is exact integer
scaling by ten to the sixth. -/
theorem parseUnits_le_six (d : Dec) (hd : d.fracDigits.length ≤ 6) :
    parseUnits d 6 = d.intPart * 10 ^ 6 +
      digitsVal d.fracDigits * 10 ^ (6 - d.fracDigits.length) := by
  obtain ⟨hle, hdec⟩ := stripTrailingZeros_spec d.fracDigits
  have hnot : ¬ (6 < (stripTrailingZeros d.fracDigits).length) := by omega
  simp only [parseUnits, hnot, if_false]
  have hv : digitsVal d.fracDigits =
      digitsVal (stripTrailingZeros d.fracDigits) *
        10 ^ (d.fracDigits.length - (stripTrailingZeros d.fracDigits).length) := by
    conv_lhs => rw [hdec]
    exact digitsVal_append_replicate _ _
  have hp : 10 ^ (6 - (stripTrailingZeros d.fracDigits).length) =
      10 ^ (d.fracDigits.length - (stripTrailingZeros d.fracDigits).length) *
        10 ^ (6 - d.fracDigits.length) := by
    rw [← pow_add]
    congr 1
    omega
  rw [hv, hp]
  ring

/-- Below two to the fifty-third every natural is binary64-representable,
so the binade search returns zero. -/
theorem f64Binade_below (fuel n : ℕ) (h : n < 2 ^ 53) : f64Binade fuel n = 0 := by
  cases fuel with
  | zero => rfl
  | succ k =>
      simp only [f64Binade]
      rw [if_pos (by omega : n < 2 ^ 53)]

/-- Binary64 rounding is the identity below two to the fifty-third. -/
theorem roundF64Nat_eq_self (n : ℕ) (h : n < 2 ^ 53) : roundF64Nat n = n := by
  unfold roundF64Nat
  rw [f64Binade_below n n h]
  simp [Nat.mod_one, Nat.div_one]

/-!
Claim theorems.
-/

/-- Claim C1 (refuted — code bug).  The SOL_SETTLED to BASE_SETTLING
transition in `triggerBasePayment` is a `findUnique` read followed by an
unconditional `update` keyed only on `intent_id`, not a single
conditional write on the expected prior status.  Under the interleaving
in which both concurrent invocations perform their read before either
performs its write, both pass the status guard, both invoke the
executor's `executePayment` (count 2), and both complete — no invocation
fails InvalidState.  Under the serialized schedule the executor runs
exactly once and the loser does fail InvalidState, which is the only
sense in which the claim holds. -/
theorem c1_trigger_double_execute :
    (runTwoTriggers 99 sampleExecOk raceSchedule twoTriggersInit).execCount = 2 ∧
    (runTwoTriggers 99 sampleExecOk raceSchedule twoTriggersInit).p0 =
      TPhase.finished TriggerOutcome.completed ∧
    (runTwoTriggers 99 sampleExecOk raceSchedule twoTriggersInit).p1 =
      TPhase.finished TriggerOutcome.completed ∧
    (runTwoTriggers 99 sampleExecOk serialSchedule twoTriggersInit).execCount = 1 ∧
    (runTwoTriggers 99 sampleExecOk serialSchedule twoTriggersInit).p1 =
      TPhase.finished TriggerOutcome.failedInvalidState :=
  ⟨rfl, rfl, rfl, rfl, rfl⟩

/-- Claim C2 (refuted — code bug).  `submitSolanaProof` checks only that
the stored status equals PENDING and never consults `expires_at`: on an
intent whose status is still PENDING but whose expiry (1000 ms) lies
before the call time (2000 ms), the proof is verified and accepted, the
record advances to SOL_SETTLED and every source-leg field is written —
the call does not fail InvalidState as the claim requires. -/
theorem c2_submit_accepts_expired_pending :
    samplePendingExpired.status = Status.PENDING ∧
    samplePendingExpired.expiresAt = some 1000 ∧
    1000 < 2000 ∧
    submitSolanaProof 2000 (VerifierOutcome.response true true none 200) sampleProofDto
        (some samplePendingExpired) =
      (some { samplePendingExpired with
              status := Status.SOL_SETTLED
              solSettleProof := some sampleProofDto.settleProof
              solTxHash := some sampleProofDto.txHash
              payerWallet := sampleProofDto.payerWallet
              solSettledAt := some 2000 },
        Except.ok { success := true
                    message := "Solana payment verified"
                    intentId := samplePendingExpired.intentId
                    status := Status.SOL_SETTLED }) :=
  ⟨rfl, rfl, by norm_num, rfl⟩

/-- Claim C6 (refuted — code bug).  `submitSolanaProof` wraps every
failure of `verifyX402Proof` — a `fetch` transport error, a non-2xx
response, and an explicit `valid: false` rejection alike — in the same
`BadRequestException` with the "Invalid settlement proof: " prefix, so
the Unavailable outcome is not surfaced as a distinct retriable
VerifierUnavailable error.  The part of the claim that does hold is the
frame: in all three cases the intent stays PENDING and no field is
modified. -/
theorem c6_unavailable_not_distinguished :
    submitSolanaProof 100 (VerifierOutcome.transportError "fetch failed") sampleProofDto
        (some samplePending) =
      (some samplePending,
        Except.error (Err.badRequest "Invalid settlement proof: fetch failed")) ∧
    submitSolanaProof 100 (VerifierOutcome.response false false none 503) sampleProofDto
        (some samplePending) =
      (some samplePending,
        Except.error
          (Err.badRequest "Invalid settlement proof: Verification failed with status 503")) ∧
    submitSolanaProof 100 (VerifierOutcome.response true false none 200) sampleProofDto
        (some samplePending) =
      (some samplePending,
        Except.error (Err.badRequest "Invalid settlement proof: Proof verification failed")) :=
  ⟨rfl, rfl, rfl⟩

/-- Claim C8 (confirmed).  On executor failure `triggerBasePayment`
rolls back with an update whose only column is `status`: the resulting
record is the original record itself — source-leg fields (settle proof,
transaction reference, payer wallet, settled timestamp) and all
creation-time fields are unchanged, and the status is back to
SOL_SETTLED — while the call fails with the SettlementFailed-class 500
error. -/
theorem c8_rollback_frame (now : ℕ) (m : String) (i : Intent)
    (hstat : i.status = Status.SOL_SETTLED) :
    triggerBasePaymentWith now (Except.error m) (some i) =
      (some i, Except.error (Err.internalServerError ("Base payment failed: " ++ m))) ∧
    (triggerBasePaymentWith now (Except.error m) (some i)).1.map Intent.solSettleProof =
      some i.solSettleProof ∧
    (triggerBasePaymentWith now (Except.error m) (some i)).1.map Intent.solTxHash =
      some i.solTxHash ∧
    (triggerBasePaymentWith now (Except.error m) (some i)).1.map Intent.payerWallet =
      some i.payerWallet ∧
    (triggerBasePaymentWith now (Except.error m) (some i)).1.map Intent.solSettledAt =
      some i.solSettledAt ∧
    (triggerBasePaymentWith now (Except.error m) (some i)).1.map Intent.createdAt =
      some i.createdAt ∧
    (triggerBasePaymentWith now (Except.error m) (some i)).1.map Intent.amount =
      some i.amount ∧
    (triggerBasePaymentWith now (Except.error m) (some i)).1.map Intent.merchantRecipient =
      some i.merchantRecipient ∧
    (triggerBasePaymentWith now (Except.error m) (some i)).1.map Intent.expiresAt =
      some i.expiresAt ∧
    (triggerBasePaymentWith now (Except.error m) (some i)).1.map Intent.status =
      some Status.SOL_SETTLED := by
  have h : triggerBasePaymentWith now (Except.error m) (some i) =
      (some i, Except.error (Err.internalServerError ("Base payment failed: " ++ m))) := by
    simp only [triggerBasePaymentWith, hstat, ne_eq, not_true_eq_false, if_false,
      Intent.setStatus_self i Status.SOL_SETTLED hstat]
  refine ⟨h, ?_, ?_, ?_, ?_, ?_, ?_, ?_, ?_, ?_⟩ <;> rw [h] <;> simp [hstat]

/-- Witness for C8 at a concrete SOL_SETTLED intent and executor
failure. -/
theorem c8_rollback_frame_witness :
    triggerBasePaymentWith 42 (Except.error "boom") (some sampleSolSettled) =
      (some sampleSolSettled,
        Except.error (Err.internalServerError ("Base payment failed: " ++ "boom"))) :=
  (c8_rollback_frame 42 "boom" sampleSolSettled rfl).1

/-- Claim C9 (confirmed).  `getReceipt` contains no update call: it
leaves the store untouched, a repeated call on the unchanged record
returns the same receipt, and a receipt is produced for every existing
intent in every lifecycle state (legs that have not settled are null —
partial receipts). -/
theorem c9_receipt_pure_projection (sn bn : String) (st : Option Intent) :
    (getReceipt sn bn st).1 = st ∧
    (getReceipt sn bn (getReceipt sn bn st).1).2 = (getReceipt sn bn st).2 ∧
    (∀ i, st = some i → ∃ r, (getReceipt sn bn st).2 = some r) := by
  have h1 : (getReceipt sn bn st).1 = st := by cases st <;> rfl
  refine ⟨h1, by rw [h1], ?_⟩
  intro i hi
  subst hi
  exact ⟨_, rfl⟩

/-- Witness for C9 at a concrete intent with only the source leg
settled. -/
theorem c9_receipt_pure_projection_witness :
    (getReceipt "devnet" "base-sepolia" (some sampleSolSettled)).1 = some sampleSolSettled ∧
    ∃ r, (getReceipt "devnet" "base-sepolia" (some sampleSolSettled)).2 = some r := by
  have h := c9_receipt_pure_projection "devnet" "base-sepolia" (some sampleSolSettled)
  exact ⟨h.1, h.2.2 sampleSolSettled rfl⟩

/-- Claim C3 counterexample.  The balance check compares
`Number(balance) < Number(amountInUsdc)`, converting both bigints
through binary64.  At balance 9007199254740992 (2^53) and amount
9007199254.740993 USDC (9007199254740993 units, 2^53 + 1), the balance
is strictly below the requested amount, yet both sides round to 2^53,
the check passes, and `executePayment` submits the transfer instead of
failing InsufficientFunds before submission. -/
theorem c3_balance_check_float_gap :
    9007199254740992 < parseUnits { intPart := 9007199254, fracDigits := [7, 4, 0, 9, 9, 3] } 6 ∧
    executePayment 9007199254740992 "0xbase"
        { intPart := 9007199254, fracDigits := [7, 4, 0, 9, 9, 3] } =
      ([9007199254740993],
        Except.ok { txHash := "0xbase", proof := some ("base_settlement_" ++ "0xbase") }) :=
  ⟨by decide, rfl⟩

/-- Claim C3 (corrected).  For amounts below 2^53 smallest units — where
the `Number(...)` conversions are lossless — the claim holds: whenever
the wallet balance is strictly below the requested units,
`executePayment` fails with the InsufficientFunds error and submits no
transfer; the enclosing `triggerBasePayment` then fails with the
SettlementFailed-class 500 error and rolls the intent back to
SOL_SETTLED unchanged; and a subsequent retry with a funded wallet
(also below 2^53) submits the transfer and completes the intent. -/
theorem c3_insufficient_funds_rollback_retry
    (now now2 : ℕ) (i : Intent) (balance balance2 : ℕ) (tx tx2 : String) (amount : Dec)
    (hstat : i.status = Status.SOL_SETTLED)
    (hsmall : parseUnits amount 6 < 2 ^ 53)
    (hlow : balance < parseUnits amount 6)
    (hfund : parseUnits amount 6 ≤ balance2)
    (hb2 : balance2 < 2 ^ 53) :
    executePayment balance tx amount = ([], Except.error insufficientMsg) ∧
    triggerBasePaymentWith now (executePayment balance tx amount).2 (some i) =
      (some i,
        Except.error (Err.internalServerError ("Base payment failed: " ++ insufficientMsg))) ∧
    (executePayment balance2 tx2 amount).1 = [parseUnits amount 6] ∧
    triggerBasePaymentWith now2 (executePayment balance2 tx2 amount).2 (some i) =
      (some { i with
              status := Status.BASE_SETTLED
              baseTxHash := some tx2
              baseSettleProof := some ("base_settlement_" ++ tx2)
              baseSettledAt := some now2
              completedAt := some now2 },
        Except.ok { success := true
                    message := "Base payment completed"
                    baseTxHash := some tx2
                    status := Status.BASE_SETTLED }) := by
  have h1 : roundF64Nat balance = balance := roundF64Nat_eq_self balance (by omega)
  have h1b : roundF64Nat balance2 = balance2 := roundF64Nat_eq_self balance2 hb2
  have h2 : roundF64Nat (parseUnits amount 6) = parseUnits amount 6 :=
    roundF64Nat_eq_self _ hsmall
  have hfail : executePayment balance tx amount = ([], Except.error insufficientMsg) := by
    simp [executePayment, h1, h2, hlow]
  have hnl : ¬ (balance2 < parseUnits amount 6) := by omega
  have hok : executePayment balance2 tx2 amount =
      ([parseUnits amount 6],
        Except.ok { txHash := tx2, proof := some ("base_settlement_" ++ tx2) }) := by
    simp [executePayment, h1b, h2, hnl]
  refine ⟨hfail, ?_, ?_, ?_⟩
  · rw [hfail]
    simp only [triggerBasePaymentWith, hstat, ne_eq, not_true_eq_false, if_false,
      Intent.setStatus_self i Status.SOL_SETTLED hstat]
  · rw [hok]
  · rw [hok]
    simp only [triggerBasePaymentWith, hstat, ne_eq, not_true_eq_false, if_false,
      proofOrDefault]
    constructor

/-- Witness for C3: amount 0.05 USDC (50000 units), failing attempt with
balance 3, successful retry with balance 50000. -/
theorem c3_insufficient_funds_rollback_retry_witness :
    executePayment 3 "0xa" { intPart := 0, fracDigits := [0, 5] } =
      ([], Except.error insufficientMsg) ∧
    triggerBasePaymentWith 50 (executePayment 3 "0xa" { intPart := 0, fracDigits := [0, 5] }).2
        (some sampleSolSettled) =
      (some sampleSolSettled,
        Except.error (Err.internalServerError ("Base payment failed: " ++ insufficientMsg))) ∧
    (executePayment 50000 "0xb" { intPart := 0, fracDigits := [0, 5] }).1 =
      [parseUnits { intPart := 0, fracDigits := [0, 5] } 6] ∧
    triggerBasePaymentWith 60 (executePayment 50000 "0xb" { intPart := 0, fracDigits := [0, 5] }).2
        (some sampleSolSettled) =
      (some { sampleSolSettled with
              status := Status.BASE_SETTLED
              baseTxHash := some "0xb"
              baseSettleProof := some ("base_settlement_" ++ "0xb")
              baseSettledAt := some 60
              completedAt := some 60 },
        Except.ok { success := true
                    message := "Base payment completed"
                    baseTxHash := some "0xb"
                    status := Status.BASE_SETTLED }) :=
  c3_insufficient_funds_rollback_retry 50 60 sampleSolSettled 3 50000 "0xa" "0xb"
    { intPart := 0, fracDigits := [0, 5] } rfl (by decide) (by decide) (by decide) (by decide)

/-- Claim C4 counterexample.  The path from the stored amount to the
transferred integer passes through `parseFloat` and `Number.toString`
(binary64): for the integral stored amount 9007199254740993 — a decimal
with zero (hence at most six) fractional digits — the transferred
integer is 9007199254740992000000, not amount times ten to the sixth. -/
theorem c4_amount_path_f64_loss :
    amountPathUnits 9007199254740993 = 9007199254740992 * 10 ^ 6 ∧
    amountPathUnits 9007199254740993 ≠ 9007199254740993 * 10 ^ 6 :=
  ⟨by decide, by decide⟩

/-- Claim C4 (corrected).  `parseUnits` itself is exact integer
arithmetic — for any decimal with at most six fraction digits it returns
exactly the value scaled by ten to the sixth — and the full path is
exact for every integral amount below 2^53, where the binary64 roundtrip
introduced by `parseFloat` and `toString` is the identity; beyond 2^53
the roundtrip can change the amount, so the claim does not hold for
every decimal with at most six fractional digits. -/
theorem c4_amount_conversion_exact (n : ℕ) (hn : n < 2 ^ 53) (d : Dec)
    (hd : d.fracDigits.length ≤ 6) :
    amountPathUnits n = n * 10 ^ 6 ∧
    parseUnits d 6 =
      d.intPart * 10 ^ 6 + digitsVal d.fracDigits * 10 ^ (6 - d.fracDigits.length) := by
  constructor
  · unfold amountPathUnits
    rw [roundF64Nat_eq_self n hn]
    rw [parseUnits_le_six { intPart := n, fracDigits := [] } (by simp)]
    simp [digitsVal]
  · exact parseUnits_le_six d hd

/-- Witness for C4: integral amount 5 and the decimal 0.05. -/
theorem c4_amount_conversion_exact_witness :
    amountPathUnits 5 = 5 * 10 ^ 6 ∧
    parseUnits { intPart := 0, fracDigits := [0, 5] } 6 =
      0 * 10 ^ 6 + digitsVal [0, 5] * 10 ^ (6 - 2) := by
  have h := c4_amount_conversion_exact 5 (by norm_num)
    { intPart := 0, fracDigits := [0, 5] } (by decide)
  exact ⟨h.1, h.2⟩

/-- Claim C5 counterexample.  `getIntent` expires a PENDING intent only
when `new Date() > expires_at` holds strictly: called exactly at
`expires_at` (1000 ms) it reports PENDING and leaves the stored status
PENDING, whereas the claim requires EXPIRED on the first call at or
after `expires_at`. -/
theorem c5_expiry_boundary :
    samplePendingExpired.status = Status.PENDING ∧
    samplePendingExpired.expiresAt = some 1000 ∧
    (getIntent 1000 (some samplePendingExpired)).1.map Intent.status = some Status.PENDING ∧
    (getIntent 1000 (some samplePendingExpired)).2.map IntentView.status = some Status.PENDING :=
  ⟨rfl, rfl, rfl, rfl⟩

/-- Claim C5 (corrected).  With operations applied one at a time, an
EXPIRED intent never leaves that state: `getIntent` leaves it untouched,
`submitSolanaProof` and `triggerBasePayment` fail with 400 errors
without writing, and `getReceipt` never writes.  Lazy expiry in
`getIntent` advances a PENDING intent to EXPIRED on the first call
strictly after `expires_at` — at or before `expires_at` it reports
PENDING (the claim's "at or after" boundary is off by one instant). -/
theorem c5_expired_terminal_lazy_expiry :
    (∀ now i, i.status = Status.EXPIRED →
      (getIntent now (some i)).1 = some i ∧ (getIntent now (some i)).2 = some i.view) ∧
    (∀ now v dto i, i.status = Status.EXPIRED →
      (submitSolanaProof now v dto (some i)).1 = some i ∧
      ∃ m, (submitSolanaProof now v dto (some i)).2 = Except.error (Err.badRequest m)) ∧
    (∀ now ex i, i.status = Status.EXPIRED →
      (triggerBasePaymentWith now ex (some i)).1 = some i ∧
      ∃ m, (triggerBasePaymentWith now ex (some i)).2 = Except.error (Err.badRequest m)) ∧
    (∀ sn bn i, i.status = Status.EXPIRED → (getReceipt sn bn (some i)).1 = some i) ∧
    (∀ now e i, i.status = Status.PENDING → i.expiresAt = some e → now ≤ e →
      (getIntent now (some i)).1 = some i ∧
      (getIntent now (some i)).2.map IntentView.status = some Status.PENDING) ∧
    (∀ now e i, i.status = Status.PENDING → i.expiresAt = some e → e < now →
      (getIntent now (some i)).1 = some { i with status := Status.EXPIRED } ∧
      (getIntent now (some i)).2.map IntentView.status = some Status.EXPIRED) := by
  refine ⟨?_, ?_, ?_, ?_, ?_, ?_⟩
  · intro now i h
    simp [getIntent, h]
  · intro now v dto i h
    refine ⟨?_, ?_⟩
    · simp [submitSolanaProof, h]
    · exact ⟨"Payment intent is not in PENDING status", by simp [submitSolanaProof, h]⟩
  · intro now ex i h
    refine ⟨?_, ?_⟩
    · simp [triggerBasePaymentWith, h]
    · exact ⟨"Solana payment not settled for intent", by simp [triggerBasePaymentWith, h]⟩
  · intro sn bn i h
    rfl
  · intro now e i h he hle
    simp [getIntent, h, he, Nat.not_lt.mpr hle, Intent.view]
  · intro now e i h he hgt
    simp [getIntent, h, he, hgt, Intent.view]

/-- Witness for C5 at concrete intents: an EXPIRED record survives
`getIntent` and `submitSolanaProof` untouched; the PENDING fixture
reports PENDING at 999 ms and EXPIRED at 1001 ms. -/
theorem c5_expired_terminal_lazy_expiry_witness :
    (getIntent 5000 (some sampleExpiredIntent)).1 = some sampleExpiredIntent ∧
    (submitSolanaProof 5000 (VerifierOutcome.response true true none 200) sampleProofDto
        (some sampleExpiredIntent)).1 = some sampleExpiredIntent ∧
    (getIntent 999 (some samplePendingExpired)).2.map IntentView.status =
      some Status.PENDING ∧
    (getIntent 1001 (some samplePendingExpired)).2.map IntentView.status =
      some Status.EXPIRED := by
  have h := c5_expired_terminal_lazy_expiry
  refine ⟨(h.1 5000 sampleExpiredIntent rfl).1,
    (h.2.1 5000 (VerifierOutcome.response true true none 200) sampleProofDto
      sampleExpiredIntent rfl).1,
    (h.2.2.2.2.1 999 1000 samplePendingExpired rfl rfl (by norm_num)).2,
    (h.2.2.2.2.2 1001 1000 samplePendingExpired rfl rfl (by norm_num)).2⟩

/-- Claim C7 counterexample.  The DTO enforces `@Min(0.01)`, not
`amount > 0`: the strictly positive amount 0.005 with a well-formed
recipient is rejected with the validation 400 error, so CreateIntent
does not succeed for every positive amount, and it fails on an input
that is neither non-positive nor malformed. -/
theorem c7_min_amount_counterexample :
    (0 : ℚ) < 1 / 200 ∧
    isEvmAddress sampleRecipient = true ∧
    createIntentEndpoint 0 "intent-1"
        { amount := 1 / 200, merchantRecipient := sampleRecipient } =
      Except.error (Err.badRequest "Validation failed") := by
  refine ⟨by norm_num, by decide, ?_⟩
  unfold createIntentEndpoint validateCreateIntent
  rw [show decide ((1 : ℚ) / 100 ≤ 1 / 200) = false from by norm_num]
  simp

/-- Claim C7 (corrected).  For every DTO passing the source's
validation — amount at least 0.01 (not merely positive) and a well-formed
recipient — CreateIntent persists a PENDING record with `expires_at`
exactly ten minutes after creation and every leg-specific field unset,
and `getIntent` at any time up to `expires_at` returns that record's
projection: status PENDING and all leg fields null.  A DTO failing the
validation is rejected with the 400 validation error. -/
theorem c7_create_intent_correct :
    (∀ now intentId dto, validateCreateIntent dto = true →
      createIntentEndpoint now intentId dto =
        Except.ok (createIntentRecord now intentId dto,
          { intentId := intentId
            amount := dto.amount
            merchantRecipient := dto.merchantRecipient
            status := Status.PENDING
            createdAt := now
            expiresAt := some (now + 10 * 60 * 1000) }) ∧
      (createIntentRecord now intentId dto).status = Status.PENDING ∧
      (createIntentRecord now intentId dto).expiresAt = some (now + 10 * 60 * 1000) ∧
      ((createIntentRecord now intentId dto).solSettleProof = none ∧
        (createIntentRecord now intentId dto).solTxHash = none ∧
        (createIntentRecord now intentId dto).payerWallet = none ∧
        (createIntentRecord now intentId dto).baseTxHash = none ∧
        (createIntentRecord now intentId dto).baseSettleProof = none ∧
        (createIntentRecord now intentId dto).solSettledAt = none ∧
        (createIntentRecord now intentId dto).baseSettledAt = none ∧
        (createIntentRecord now intentId dto).completedAt = none) ∧
      (∀ now2, now2 ≤ now + 10 * 60 * 1000 →
        (getIntent now2 (some (createIntentRecord now intentId dto))).1 =
          some (createIntentRecord now intentId dto) ∧
        (getIntent now2 (some (createIntentRecord now intentId dto))).2 =
          some (createIntentRecord now intentId dto).view ∧
        ((createIntentRecord now intentId dto).view.status = Status.PENDING ∧
          (createIntentRecord now intentId dto).view.solTxHash = none ∧
          (createIntentRecord now intentId dto).view.baseTxHash = none ∧
          (createIntentRecord now intentId dto).view.payerWallet = none ∧
          (createIntentRecord now intentId dto).view.solSettledAt = none ∧
          (createIntentRecord now intentId dto).view.baseSettledAt = none ∧
          (createIntentRecord now intentId dto).view.completedAt = none))) ∧
    (∀ now intentId dto, validateCreateIntent dto = false →
      createIntentEndpoint now intentId dto = Except.error (Err.badRequest "Validation failed")) := by
  constructor
  · intro now intentId dto hval
    refine ⟨?_, rfl, rfl, ⟨rfl, rfl, rfl, rfl, rfl, rfl, rfl, rfl⟩, ?_⟩
    · simp [createIntentEndpoint, hval, createIntentRecord]
    · intro now2 h2
      refine ⟨?_, ?_, ⟨rfl, rfl, rfl, rfl, rfl, rfl, rfl⟩⟩
      · simp [getIntent, createIntentRecord, Nat.not_lt.mpr h2]
      · simp [getIntent, createIntentRecord, Nat.not_lt.mpr h2]
  · intro now intentId dto hval
    simp [createIntentEndpoint, hval]

/-- Witness for C7: a valid DTO (amount 0.05) is accepted and read back
PENDING with unset leg fields; the zero amount is rejected. -/
theorem c7_create_intent_correct_witness :
    createIntentEndpoint 100 "intent-1"
        { amount := 5 / 100, merchantRecipient := sampleRecipient } =
      Except.ok
        (createIntentRecord 100 "intent-1"
          { amount := 5 / 100, merchantRecipient := sampleRecipient },
          { intentId := "intent-1"
            amount := 5 / 100
            merchantRecipient := sampleRecipient
            status := Status.PENDING
            createdAt := 100
            expiresAt := some (100 + 10 * 60 * 1000) }) ∧
    (getIntent 200 (some (createIntentRecord 100 "intent-1"
        { amount := 5 / 100, merchantRecipient := sampleRecipient }))).2 =
      some (createIntentRecord 100 "intent-1"
        { amount := 5 / 100, merchantRecipient := sampleRecipient }).view ∧
    createIntentEndpoint 0 "intent-2"
        { amount := 0, merchantRecipient := sampleRecipient } =
      Except.error (Err.badRequest "Validation failed") := by
  have hval : validateCreateIntent
      { amount := 5 / 100, merchantRecipient := sampleRecipient } = true := by
    unfold validateCreateIntent
    rw [show decide ((1 : ℚ) / 100 ≤ 5 / 100) = true from by norm_num]
    simp only [Bool.true_and]
    decide
  have hbad : validateCreateIntent
      { amount := 0, merchantRecipient := sampleRecipient } = false := by
    unfold validateCreateIntent
    rw [show decide ((1 : ℚ) / 100 ≤ 0) = false from by norm_num]
    simp
  have h1 := c7_create_intent_correct.1 100 "intent-1"
    { amount := 5 / 100, merchantRecipient := sampleRecipient } hval
  have h2 := c7_create_intent_correct.2 0 "intent-2"
    { amount := 0, merchantRecipient := sampleRecipient } hbad
  exact ⟨h1.1, (h1.2.2.2.2 200 (by norm_num)).2.1, h2⟩

/-- States that the record of one intent id (when present) carries the
fixed chain pair written at creation. -/
def chainsFixed (st : Option Intent) : Bool :=
  match st with
  | none => true
  | some i => decide (i.payerChain = "solana") && decide (i.targetChain = "base")

/-- Claim C10 (confirmed).  `createIntent` writes `payer_chain` as
solana and `target_chain` as base for every input, and no operation
ever writes either column, so every record any request can produce
carries exactly this chain pair. -/
theorem c10_chains_fixed :
    (∀ now intentId dto, (createIntentRecord now intentId dto).payerChain = "solana" ∧
      (createIntentRecord now intentId dto).targetChain = "base") ∧
    (∀ now st, chainsFixed st = true → chainsFixed (getIntent now st).1 = true) ∧
    (∀ now v dto st, chainsFixed st = true →
      chainsFixed (submitSolanaProof now v dto st).1 = true) ∧
    (∀ now ex st, chainsFixed st = true →
      chainsFixed (triggerBasePaymentWith now ex st).1 = true) ∧
    (∀ sn bn st, chainsFixed st = true → chainsFixed (getReceipt sn bn st).1 = true) := by
  refine ⟨fun _ _ _ => ⟨rfl, rfl⟩, ?_, ?_, ?_, ?_⟩
  · intro now st h
    cases st with
    | none => exact h
    | some i =>
        simp only [getIntent]
        split
        · exact h
        · exact h
  · intro now v dto st h
    cases st with
    | none => exact h
    | some i =>
        simp only [submitSolanaProof]
        split
        · exact h
        · split
          · exact h
          · exact h
  · intro now ex st h
    cases st with
    | none => exact h
    | some i =>
        simp only [triggerBasePaymentWith]
        split
        · exact h
        · split
          · exact h
          · exact h
  · intro sn bn st h
    cases st with
    | none => exact h
    | some i => exact h

/-- Witness for C10 at concrete inputs: creation fixes the pair, and it
survives lazy expiry and a failing trigger. -/
theorem c10_chains_fixed_witness :
    (createIntentRecord 0 "intent-9"
      { amount := 1, merchantRecipient := sampleRecipient }).payerChain = "solana" ∧
    (createIntentRecord 0 "intent-9"
      { amount := 1, merchantRecipient := sampleRecipient }).targetChain = "base" ∧
    chainsFixed (getIntent 1001 (some samplePendingExpired)).1 = true ∧
    chainsFixed (triggerBasePaymentWith 42 (Except.error "x") (some sampleSolSettled)).1 = true := by
  have h := c10_chains_fixed
  exact ⟨(h.1 0 "intent-9" { amount := 1, merchantRecipient := sampleRecipient }).1,
    (h.1 0 "intent-9" { amount := 1, merchantRecipient := sampleRecipient }).2,
    h.2.1 1001 (some samplePendingExpired) rfl,
    h.2.2.2.1 42 (Except.error "x") (some sampleSolSettled) rfl⟩
